import Mathlib

/-!
Verification development for `examples/pubsub_client_2wtls.py`, a single-action
XEP-0060 publish/subscribe command-line client built on slixmpp.

The embedding models the client as pure data: each async handler method becomes
a function from the client state and the (single) correlated server response to
a `HandlerRun` record listing the protocol requests it built, the logging calls
it made, and the exception (if any) escaping the handler.  The lifecycle entry
point `start` (lines 37-45 of the source) becomes a function producing the
ordered event trace of a run that has reached the session-established event.
Python-specific behaviours that the claims depend on are modelled explicitly:
`str.split` with a one-character separator (`pySplit`), truthiness of an
optional string (`pyTruthy`), rendering of an optional value in a log message
(`pyStr`), and lazy percent-style interpolation of logging format strings
(`renderFmt`), which fails when the argument count does not match the number of
placeholders, exactly as CPython raises during `record.getMessage()`.
-/

namespace Pubsub2wtls

/-- Model of Python `s.split(sep)` for a one-character separator: every
occurrence of the separator ends a field, and the overall result is never
empty; in particular `"".split(",") == [""]`. -/
def pySplitAux (sep : Char) : List Char → List Char → List String
  | [], acc => [String.mk acc.reverse]
  | c :: cs, acc =>
    if c = sep then String.mk acc.reverse :: pySplitAux sep cs []
    else pySplitAux sep cs (c :: acc)

/-- Python `s.split(sep)` on a whole string. -/
def pySplit (sep : Char) (s : String) : List String :=
  pySplitAux sep s.data []

/-- Python truthiness of an optional string: `None` and `""` are falsy. -/
def pyTruthy : Option String → Bool
  | none => false
  | some s => !(s == "")

/-- Python `str()` of an optional string as it appears in a log message:
`None` renders as the text `None`. -/
def pyStr : Option String → String
  | none => "None"
  | some s => s

/-- A segment of a percent-style format string: literal text or a `%s`
placeholder. -/
inductive FmtPart
  | lit (s : String)
  | ph
deriving DecidableEq, Repr

/-- Severity of a logging call in the source. -/
inductive LogLevel
  | info
  | error
  | critical
  | exception
deriving DecidableEq, Repr

/-- One logging call: severity, format string (split into segments) and the
positional arguments passed alongside it. -/
structure LogLine where
  level : LogLevel
  fmt : List FmtPart
  args : List String
deriving DecidableEq, Repr

/-- Percent interpolation as Python applies it when the log record is emitted:
each placeholder consumes one argument in order.  A surplus of arguments (as
well as a shortage) raises inside `record.getMessage()`, so no message line is
produced: that case is `none`.  When the argument list is empty Python skips
interpolation entirely, which agrees with this definition on a
placeholder-free format. -/
def renderFmt : List FmtPart → List String → Option String
  | [], [] => some ""
  | FmtPart.lit s :: rest, args => (renderFmt rest args).map (fun r => s ++ r)
  | FmtPart.ph :: rest, a :: args => (renderFmt rest args).map (fun r => a ++ r)
  | FmtPart.ph :: _, [] => none
  | [], _ :: _ => none

/-- The message a logging call actually emits, if interpolation succeeds. -/
def renderLog (l : LogLine) : Option String :=
  renderFmt l.fmt l.args

def infoLine (fmt : List FmtPart) (args : List String) : LogLine :=
  ⟨LogLevel.info, fmt, args⟩

def errorLine (fmt : List FmtPart) (args : List String) : LogLine :=
  ⟨LogLevel.error, fmt, args⟩

/-- `error.format()` of a slixmpp `XMPPError`: the classified fault rendered
as text (condition, descriptive text, context). -/
structure XMPPErr where
  formatted : String
deriving DecidableEq, Repr

/-- Exceptions that can escape a handler. -/
inductive Exc
  | xmpp (e : XMPPErr)
  | attributeError (msg : String)
  | other (msg : String)
deriving DecidableEq, Repr

/-- The XEP-0060 protocol requests the twelve handlers can build (one request
per handler invocation). -/
inductive Request
  | getNodes (server : String) (node : Option String)
  | createNode (server : String) (node : Option String)
  | deleteNode (server : String) (node : Option String)
  | getNodeConfig (server : String) (node : Option String)
  | publishReq (server : String) (node : Option String) (payload : String)
  | getItem (server : String) (node : Option String) (item : Option String)
  | retractReq (server : String) (node : Option String) (item : Option String)
  | purgeReq (server : String) (node : Option String)
  | subscribeReq (server : String) (node : Option String)
  | unsubscribeReq (server : String) (node : Option String)
  | getAffiliations (server : String) (node : Option String)
  | modifyAffiliations (server : String) (node : Option String)
      (affiliations : List (String × String))
deriving DecidableEq, Repr

/-- State of a `PubsubClient` after `__init__` (lines 16-35): constructor
arguments stored on the instance, plus the bare bound JID used in log
messages.  `node` and `data` are optional because `argparse` supplies `None`
when the positional arguments are omitted. -/
structure Client where
  jid : String
  password : String
  pubsub_server : String
  node : Option String
  action : String
  data : Option String
  boundjidBare : String
deriving DecidableEq, Repr

/-- `self.actions` as built in `__init__` (lines 24-28): the ten-element list
literal followed by two appends. -/
def actions : List String :=
  ["nodes", "create", "delete", "get_configure", "publish", "get", "retract",
   "purge", "subscribe", "unsubscribe"] ++ ["add_owner"] ++ ["get_affiliation"]

/-- `choices` as built in `__main__` (lines 144-146): same twelve names, in
the order the argument parser sees them. -/
def choices : List String :=
  ["nodes", "create", "delete", "get_configure", "purge", "subscribe",
   "unsubscribe", "publish", "retract", "get"] ++ ["add_owner"] ++ ["get_affiliation"]

/-- What one handler invocation did: the protocol requests it built and
submitted, the logging calls it made, and the exception (if any) escaping it. -/
structure HandlerRun where
  requests : List Request
  logs : List LogLine
  raised : Option Exc
deriving DecidableEq, Repr

/-- Handler `nodes` (lines 47-53): disco-items listing; success logs each
discovered item, an `XMPPError` fault is caught and logged. -/
def nodes (c : Client) (resp : Except XMPPErr (List String)) : HandlerRun :=
  match resp with
  | Except.ok items =>
    ⟨[Request.getNodes c.pubsub_server c.node],
     items.map (fun it => infoLine [FmtPart.lit "  - ", FmtPart.ph] [it]), none⟩
  | Except.error e =>
    ⟨[Request.getNodes c.pubsub_server c.node],
     [errorLine [FmtPart.lit "Could not retrieve node list: ", FmtPart.ph]
       [e.formatted]], none⟩

/-- Handler `create` (lines 55-60). -/
def create (c : Client) (resp : Except XMPPErr Unit) : HandlerRun :=
  match resp with
  | Except.ok _ =>
    ⟨[Request.createNode c.pubsub_server c.node],
     [infoLine [FmtPart.lit "Created node ", FmtPart.ph] [pyStr c.node]], none⟩
  | Except.error e =>
    ⟨[Request.createNode c.pubsub_server c.node],
     [errorLine [FmtPart.lit "Could not create node ", FmtPart.ph,
        FmtPart.lit ": ", FmtPart.ph] [pyStr c.node, e.formatted]], none⟩

/-- Handler `delete` (lines 62-67). -/
def delete (c : Client) (resp : Except XMPPErr Unit) : HandlerRun :=
  match resp with
  | Except.ok _ =>
    ⟨[Request.deleteNode c.pubsub_server c.node],
     [infoLine [FmtPart.lit "Deleted node ", FmtPart.ph] [pyStr c.node]], none⟩
  | Except.error e =>
    ⟨[Request.deleteNode c.pubsub_server c.node],
     [errorLine [FmtPart.lit "Could not delete node ", FmtPart.ph,
        FmtPart.lit ": ", FmtPart.ph] [pyStr c.node, e.formatted]], none⟩

/-- Handler `get_configure` (lines 69-74); the success value is the rendered
configuration form. -/
def get_configure (c : Client) (resp : Except XMPPErr String) : HandlerRun :=
  match resp with
  | Except.ok form =>
    ⟨[Request.getNodeConfig c.pubsub_server c.node],
     [infoLine [FmtPart.lit "Configure form received from node ", FmtPart.ph,
        FmtPart.lit ": ", FmtPart.ph] [pyStr c.node, form]], none⟩
  | Except.error e =>
    ⟨[Request.getNodeConfig c.pubsub_server c.node],
     [errorLine [FmtPart.lit "Could not retrieve configure form from node ",
        FmtPart.ph, FmtPart.lit ": ", FmtPart.ph] [pyStr c.node, e.formatted]], none⟩

/-- The fixed placeholder document of line 80. -/
def placeholderPayload : String := "<test xmlns=\x27test\x27>hello world</test>"

/-- Payload selection of lines 77-80: `if self.data:` substitutes the
placeholder when `data` is `None` or empty; a payload is identified with its
serialized document text. -/
def publishPayload (data : Option String) : String :=
  if pyTruthy data then pyStr data else placeholderPayload

/-- Handler `publish` (lines 76-86); the success value is the server-assigned
item id. -/
def publish (c : Client) (resp : Except XMPPErr String) : HandlerRun :=
  let payload := publishPayload c.data
  match resp with
  | Except.ok itemId =>
    ⟨[Request.publishReq c.pubsub_server c.node payload],
     [infoLine [FmtPart.lit "Published at item id: ", FmtPart.ph] [itemId]], none⟩
  | Except.error e =>
    ⟨[Request.publishReq c.pubsub_server c.node payload],
     [errorLine [FmtPart.lit "Could not publish to ", FmtPart.ph,
        FmtPart.lit ": ", FmtPart.ph] [pyStr c.node, e.formatted]], none⟩

/-- Handler `get` (lines 88-94): `self.data` is passed through unchanged as
the item id; the success value is the returned (id, payload) substanzas. -/
def get (c : Client) (resp : Except XMPPErr (List (String × String))) : HandlerRun :=
  match resp with
  | Except.ok items =>
    ⟨[Request.getItem c.pubsub_server c.node c.data],
     items.map (fun it => infoLine [FmtPart.lit "Retrieved item ", FmtPart.ph,
       FmtPart.lit ": ", FmtPart.ph] [it.1, it.2]), none⟩
  | Except.error e =>
    ⟨[Request.getItem c.pubsub_server c.node c.data],
     [errorLine [FmtPart.lit "Could not retrieve item ", FmtPart.ph,
        FmtPart.lit " from node ", FmtPart.ph, FmtPart.lit ": ", FmtPart.ph]
       [pyStr c.data, pyStr c.node, e.formatted]], none⟩

/-- Handler `retract` (lines 96-101). -/
def retract (c : Client) (resp : Except XMPPErr Unit) : HandlerRun :=
  match resp with
  | Except.ok _ =>
    ⟨[Request.retractReq c.pubsub_server c.node c.data],
     [infoLine [FmtPart.lit "Retracted item ", FmtPart.ph,
        FmtPart.lit " from node ", FmtPart.ph] [pyStr c.data, pyStr c.node]], none⟩
  | Except.error e =>
    ⟨[Request.retractReq c.pubsub_server c.node c.data],
     [errorLine [FmtPart.lit "Could not retract item ", FmtPart.ph,
        FmtPart.lit " from node ", FmtPart.ph, FmtPart.lit ": ", FmtPart.ph]
       [pyStr c.data, pyStr c.node, e.formatted]], none⟩

/-- Handler `purge` (lines 103-108). -/
def purge (c : Client) (resp : Except XMPPErr Unit) : HandlerRun :=
  match resp with
  | Except.ok _ =>
    ⟨[Request.purgeReq c.pubsub_server c.node],
     [infoLine [FmtPart.lit "Purged all items from node ", FmtPart.ph]
       [pyStr c.node]], none⟩
  | Except.error e =>
    ⟨[Request.purgeReq c.pubsub_server c.node],
     [errorLine [FmtPart.lit "Could not purge items from node ", FmtPart.ph,
        FmtPart.lit ": ", FmtPart.ph] [pyStr c.node, e.formatted]], none⟩

/-- Handler `subscribe` (lines 110-116); the success value is the
subscription's (jid, node) pair read off the result iq. -/
def subscribe (c : Client) (resp : Except XMPPErr (String × String)) : HandlerRun :=
  match resp with
  | Except.ok sub =>
    ⟨[Request.subscribeReq c.pubsub_server c.node],
     [infoLine [FmtPart.lit "Subscribed ", FmtPart.ph, FmtPart.lit " to node ",
        FmtPart.ph] [sub.1, sub.2]], none⟩
  | Except.error e =>
    ⟨[Request.subscribeReq c.pubsub_server c.node],
     [errorLine [FmtPart.lit "Could not subscribe ", FmtPart.ph,
        FmtPart.lit " to node ", FmtPart.ph, FmtPart.lit ": ", FmtPart.ph]
       [c.boundjidBare, pyStr c.node, e.formatted]], none⟩

/-- Handler `unsubscribe` (lines 118-123). -/
def unsubscribe (c : Client) (resp : Except XMPPErr Unit) : HandlerRun :=
  match resp with
  | Except.ok _ =>
    ⟨[Request.unsubscribeReq c.pubsub_server c.node],
     [infoLine [FmtPart.lit "Unsubscribed ", FmtPart.ph,
        FmtPart.lit " from node ", FmtPart.ph] [c.boundjidBare, pyStr c.node]], none⟩
  | Except.error e =>
    ⟨[Request.unsubscribeReq c.pubsub_server c.node],
     [errorLine [FmtPart.lit "Could not unsubscribe ", FmtPart.ph,
        FmtPart.lit " from node ", FmtPart.ph, FmtPart.lit ": ", FmtPart.ph]
       [c.boundjidBare, pyStr c.node, e.formatted]], none⟩

/-- Handler `get_affiliation` (lines 125-131); the success value is the
affiliation element rendered as text.  The success log is an f-string (already
interpolated); the failure log passes three positional arguments with a format
string containing no placeholder, exactly as in the source. -/
def get_affiliation (c : Client) (resp : Except XMPPErr String) : HandlerRun :=
  match resp with
  | Except.ok affiliation =>
    ⟨[Request.getAffiliations c.pubsub_server c.node],
     [infoLine [FmtPart.lit ("Affiliations for " ++ c.boundjidBare ++ " " ++
        pyStr c.node ++ " " ++ affiliation)] []], none⟩
  | Except.error e =>
    ⟨[Request.getAffiliations c.pubsub_server c.node],
     [errorLine [FmtPart.lit "Could not get affiliations"]
       [c.boundjidBare, pyStr c.node, e.formatted]], none⟩

/-- Handler `add_owner` (lines 133-140): line 134 splits `self.data` on commas
before the `try` block, so when `data` is `None` an `AttributeError` escapes
the handler before any request is built; otherwise one batch
modify-affiliations request carries one `(identity, owner)` entry per split
field.  The failure log repeats the placeholder-free format of
`get_affiliation`. -/
def add_owner (c : Client) (resp : Except XMPPErr String) : HandlerRun :=
  match c.data with
  | none =>
    ⟨[], [], some (Exc.attributeError "NoneType object has no attribute split")⟩
  | some d =>
    let affiliations := (pySplit ',' d).map (fun new_owner => (new_owner, "owner"))
    match resp with
    | Except.ok iq =>
      ⟨[Request.modifyAffiliations c.pubsub_server c.node affiliations],
       [infoLine [FmtPart.lit ("Affiliations for " ++ c.boundjidBare ++ " " ++
          pyStr c.node ++ " " ++ iq)] []], none⟩
    | Except.error e =>
      ⟨[Request.modifyAffiliations c.pubsub_server c.node affiliations],
       [errorLine [FmtPart.lit "Could not get affiliations"]
         [c.boundjidBare, pyStr c.node, e.formatted]], none⟩

/-- Attribute names resolvable on a `PubsubClient` instance besides the twelve
handler methods: the base-class methods this file itself invokes (lines 20-22,
35, 38, 39, 45, 211, 212).  Dispatch at line 42 is a plain `getattr`, so any
of these names, handed to it, is looked up and invoked like a handler. -/
def inheritedMethods : List String :=
  ["register_plugin", "add_event_handler", "get_roster", "send_presence",
   "disconnect", "connect", "process", "start"]

/-- Outcome of the `getattr(self, self.action)` lookup at line 42. -/
inductive AttrLookup
  | handler (name : String)
  | inherited (name : String)
  | attrError
deriving DecidableEq, Repr

/-- The lookup itself: a handler method when the name is one of the twelve, an
unrelated inherited method when the name happens to be one, otherwise an
`AttributeError`.  No branch consults `self.actions` or raises a dedicated
unsupported-action exception. -/
def getattrClient (name : String) : AttrLookup :=
  if name ∈ actions then AttrLookup.handler name
  else if name ∈ inheritedMethods then AttrLookup.inherited name
  else AttrLookup.attrError

/-- Whether the dispatch expression at line 42 refuses to invoke anything for
the given action name (i.e. the attribute lookup itself fails). -/
def dispatchRejects (name : String) : Bool :=
  match getattrClient name with
  | AttrLookup.attrError => true
  | _ => false

/-- `parser.add_argument("action", choices=choices)` at line 173: a name
outside `choices` is rejected at argument-parsing time, before any client is
constructed. -/
def parseAction (name : String) : Option String :=
  if name ∈ choices then some name else none

/-- Observable events of a run of `start` (lines 37-45). -/
inductive Event
  | rosterRetrieved
  | presenceSent
  | handlerStarted (name : String)
  | inheritedInvoked (name : String)
  | logged (l : LogLine)
  | disconnected
deriving DecidableEq, Repr

/-- The `logging.exception('Could not execute %s:', self.action)` call of
line 44. -/
def exceptionLine (action : String) : LogLine :=
  ⟨LogLevel.exception, [FmtPart.lit "Could not execute ", FmtPart.ph,
    FmtPart.lit ":"], [action]⟩

/-- The session-established callback `start` (lines 37-45): roster retrieval,
presence announcement, then `getattr(self, self.action)()` inside a bare
`try`/`except` that logs any escaping exception, then `self.disconnect()`
unconditionally.  The dispatched handler's behaviour is supplied as `run`;
when the lookup resolves to an inherited method that method is invoked
instead, and when it fails the `AttributeError` lands in the same bare
`except`. -/
def start (c : Client) (run : HandlerRun) : List Event :=
  [Event.rosterRetrieved, Event.presenceSent] ++
  (match getattrClient c.action with
   | AttrLookup.handler n =>
     Event.handlerStarted n ::
       (run.logs.map Event.logged ++
        (match run.raised with
         | some _ => [Event.logged (exceptionLine c.action)]
         | none => []))
   | AttrLookup.inherited n => [Event.inheritedInvoked n]
   | AttrLookup.attrError => [Event.logged (exceptionLine c.action)]) ++
  [Event.disconnected]

def isDisconnect : Event → Bool
  | Event.disconnected => true
  | _ => false

def isDispatch : Event → Bool
  | Event.handlerStarted _ => true
  | _ => false

/-- Presence of the certificate material on disk, as probed by the
`os.path.isdir`/`os.path.isfile` calls of lines 198-204. -/
structure CertFS where
  dirExists : Bool
  caExists : Bool
  certExists : Bool
  keyExists : Bool
deriving DecidableEq, Repr

/-- Observable events of the `__main__` certificate checks and the subsequent
connect (lines 191-212). -/
inductive MainEvent
  | logCritical (msg : String)
  | logError (msg : String)
  | exited
  | connected
deriving DecidableEq, Repr

def CERT_DIR : String := "certs/"

def ca_certs : String := CERT_DIR ++ "/server_ca.pem"

def certfile : String := CERT_DIR ++ "/client.pem"

def keyfile : String := CERT_DIR ++ "/client.key"

/-- Lines 191-212 of `__main__`: if the certificate directory is missing, log
critical and exit; else if the CA bundle is missing, log critical and exit;
else log a (non-fatal) error for a missing client certificate and for a
missing client key — the key message interpolates `xmpp.ca_certs`, as in
line 205 of the source — and then connect.  The messages are pre-rendered
with `%` before the logging call, as in the source. -/
def certCheckAndConnect (fs : CertFS) (cwd : String) : List MainEvent :=
  if fs.dirExists then
    if !fs.caExists then
      [MainEvent.logCritical ("CA Certificate not found at " ++ ca_certs),
       MainEvent.exited]
    else
      ((if !fs.certExists then
          [MainEvent.logError ("Client Certificate not found at " ++ certfile)]
        else []) ++
       (if !fs.keyExists then
          [MainEvent.logError ("Client Key not found at " ++ ca_certs)]
        else []) ++
       [MainEvent.connected])
  else
    [MainEvent.logCritical ("Certificate Directory not found at " ++ cwd),
     MainEvent.exited]

/-- The affiliation entries of a run that built exactly one batch
modify-affiliations request. -/
def batchEntries (run : HandlerRun) : Option (List (String × String)) :=
  match run.requests with
  | [Request.modifyAffiliations _ _ affs] => some affs
  | _ => none

/-- The payload of a run that built exactly one publish request. -/
def sentPayload (run : HandlerRun) : Option String :=
  match run.requests with
  | [Request.publishReq _ _ p] => some p
  | _ => none

/-- A concrete client as `__main__` builds it (lines 185-189). -/
def exClient (action : String) (node data : Option String) : Client :=
  ⟨"user@example.com", "hunter2", "pubsub.example.com", node, action, data,
   "user@example.com"⟩

/-- The parser's choice list and the instance's action list contain the same
twelve names. -/
lemma mem_choices_iff_mem_actions (name : String) :
    name ∈ choices ↔ name ∈ actions := by
  simp only [choices, actions, List.mem_append, List.mem_cons,
    List.not_mem_nil, or_false]
  tauto

/-- Claim C2, evaluated at the failing input: on a protocol fault, the
`get_affiliation` handler makes exactly one failure logging call, but its
format string has no placeholder while three positional arguments are passed,
so the message cannot be interpolated (Python's logging raises internally and
emits no message line); in particular no emitted failure line contains the
node.  No exception escapes the handler. -/
theorem get_affiliation_fault_log_unrenderable :
    ((get_affiliation (exClient "get_affiliation" (some "n1") none)
        (Except.error ⟨"forbidden: access denied"⟩)).logs.map renderLog = [none]) ∧
    ((get_affiliation (exClient "get_affiliation" (some "n1") none)
        (Except.error ⟨"forbidden: access denied"⟩)).logs.length = 1) ∧
    ((get_affiliation (exClient "get_affiliation" (some "n1") none)
        (Except.error ⟨"forbidden: access denied"⟩)).raised = none) := by
  decide

/-- Claim C3, counterexample: `add_owner` with an empty data string builds a
batch modify-affiliations request with exactly ONE entry `("", "owner")`, not
zero entries, because `"".split(",")` is `[""]`. -/
theorem add_owner_empty_data_counterexample :
    batchEntries (add_owner (exClient "add_owner" (some "n1") (some ""))
        (Except.ok "iq")) = some [("", "owner")] ∧
    batchEntries (add_owner (exClient "add_owner" (some "n1") (some ""))
        (Except.ok "iq")) ≠ some [] := by
  decide

/-- Claim C3, amended: `add_owner` with an empty data string builds one batch
modify-affiliations request whose entry list has exactly one entry, the empty
identity with role owner, and raises nothing at this layer. -/
theorem add_owner_empty_data_amended (c : Client) (resp : Except XMPPErr String)
    (hd : c.data = some "") :
    batchEntries (add_owner c resp) = some [("", "owner")] ∧
    (add_owner c resp).raised = none := by
  cases resp <;> simp [add_owner, hd, batchEntries, pySplit, pySplitAux]

theorem add_owner_empty_data_amended_witness :
    batchEntries (add_owner (exClient "add_owner" (some "n2") (some ""))
        (Except.error ⟨"conflict"⟩)) = some [("", "owner")] ∧
    (add_owner (exClient "add_owner" (some "n2") (some ""))
        (Except.error ⟨"conflict"⟩)).raised = none :=
  add_owner_empty_data_amended (exClient "add_owner" (some "n2") (some ""))
    (Except.error ⟨"conflict"⟩) rfl

/-- Claim C5: `add_owner` with data `a@x,b@x` builds a single batch
modify-affiliations request containing exactly two entries, both with role
owner, identities `a@x` and `b@x` in that order — whatever the server then
answers. -/
theorem add_owner_two_owner_entries (resp : Except XMPPErr String) :
    (add_owner (exClient "add_owner" (some "princely_musings") (some "a@x,b@x"))
        resp).requests =
      [Request.modifyAffiliations "pubsub.example.com" (some "princely_musings")
        [("a@x", "owner"), ("b@x", "owner")]] := by
  have hs : (pySplit ',' "a@x,b@x").map (fun new_owner => (new_owner, "owner")) =
      [("a@x", "owner"), ("b@x", "owner")] := by decide
  cases resp <;> simp [add_owner, exClient, hs]

theorem add_owner_two_owner_entries_witness :
    (add_owner (exClient "add_owner" (some "princely_musings") (some "a@x,b@x"))
        (Except.ok "iq")).requests =
      [Request.modifyAffiliations "pubsub.example.com" (some "princely_musings")
        [("a@x", "owner"), ("b@x", "owner")]] :=
  add_owner_two_owner_entries (Except.ok "iq")

/-- Claim C10: with the certificate directory and CA bundle present but the
client key absent, the logged non-fatal message interpolates the CA bundle
path `certs//server_ca.pem` — not the key path `certs//client.key` — and the
connection is still attempted. -/
theorem key_missing_message_names_ca_path :
    certCheckAndConnect ⟨true, true, true, false⟩ "/home/user/project" =
      [MainEvent.logError "Client Key not found at certs//server_ca.pem",
       MainEvent.connected] ∧
    ca_certs ≠ keyfile ∧
    "Client Key not found at certs//server_ca.pem" ≠
      "Client Key not found at " ++ keyfile := by
  decide

/-- Claim C4: the publish handler transmits the fixed placeholder document
when the data field is missing (`None`) or empty, and transmits the supplied
document itself when a non-empty (well-formed) data string is given —
whatever the server then answers. -/
theorem publish_payload_selection (c : Client) (resp : Except XMPPErr String) :
    ((c.data = none ∨ c.data = some "") →
      sentPayload (publish c resp) = some placeholderPayload) ∧
    (∀ d : String, d ≠ "" → c.data = some d →
      sentPayload (publish c resp) = some d) := by
  constructor
  · intro hd
    rcases hd with hd | hd <;>
      cases resp <;>
        simp [publish, sentPayload, publishPayload, pyTruthy, pyStr, hd]
  · intro d hne hd
    cases resp <;>
      simp [publish, sentPayload, publishPayload, pyTruthy, pyStr, hd, hne]

theorem publish_payload_selection_witness :
    sentPayload (publish (exClient "publish" (some "n1") none) (Except.ok "i1")) =
      some placeholderPayload ∧
    sentPayload (publish (exClient "publish" (some "n1") (some "<doc/>"))
        (Except.ok "i1")) = some "<doc/>" :=
  ⟨(publish_payload_selection (exClient "publish" (some "n1") none)
      (Except.ok "i1")).1 (Or.inl rfl),
   (publish_payload_selection (exClient "publish" (some "n1") (some "<doc/>"))
      (Except.ok "i1")).2 "<doc/>" (by decide) rfl⟩

/-- Claim C6, counterexample: the name `disconnect` is outside the twelve-name
action set and is duly rejected at argument-parsing time, yet at dispatch time
it is NOT rejected: the `getattr` lookup resolves it to the inherited
`disconnect` method, which `start` would simply invoke.  There is no
dispatch-time validation and no dedicated unsupported-action exception. -/
theorem dispatch_no_second_validation_counterexample :
    "disconnect" ∉ actions ∧
    parseAction "disconnect" = none ∧
    getattrClient "disconnect" = AttrLookup.inherited "disconnect" ∧
    dispatchRejects "disconnect" = false := by
  decide

/-- Claim C6, amended: a name outside the twelve-name set is rejected at
argument-parsing time by the `choices` check, so an invalid action given on
the command line never reaches dispatch and never causes a network request;
dispatch itself performs no second validation — the `getattr` lookup never
resolves an out-of-set name to a handler, but it either invokes an unrelated
inherited method or fails with a plain `AttributeError` (swallowed by the
lifecycle catch-all), never with a dedicated unsupported-action error. -/
theorem action_rejected_at_parse_only (name : String) (h : name ∉ actions) :
    parseAction name = none ∧
    (∀ m, getattrClient name ≠ AttrLookup.handler m) ∧
    (dispatchRejects name = true ↔ name ∉ inheritedMethods) := by
  have hc : name ∉ choices := fun hx => h ((mem_choices_iff_mem_actions name).1 hx)
  refine ⟨by simp [parseAction, hc], ?_, ?_⟩
  · intro m
    simp [getattrClient, h]
    split <;> simp
  · by_cases hi : name ∈ inheritedMethods <;>
      simp [dispatchRejects, getattrClient, h, hi]

theorem action_rejected_at_parse_only_witness :
    parseAction "frobnicate" = none ∧
    (∀ m, getattrClient "frobnicate" ≠ AttrLookup.handler m) ∧
    (dispatchRejects "frobnicate" = true ↔ "frobnicate" ∉ inheritedMethods) :=
  action_rejected_at_parse_only "frobnicate" (by decide)

/-- Claim C7: the `get` handler passes the client's data field through to the
item request unchanged (also when empty or missing), and on success logs one
(id, payload) line per returned item, in order. -/
theorem get_item_passthrough (c : Client)
    (resp : Except XMPPErr (List (String × String))) :
    (get c resp).requests = [Request.getItem c.pubsub_server c.node c.data] ∧
    (∀ items, resp = Except.ok items →
      (get c resp).logs = items.map (fun it =>
        infoLine [FmtPart.lit "Retrieved item ", FmtPart.ph,
          FmtPart.lit ": ", FmtPart.ph] [it.1, it.2])) ∧
    (get c resp).raised = none := by
  refine ⟨?_, ?_, ?_⟩ <;> cases resp <;> simp [get]

theorem get_item_passthrough_witness :
    (get (exClient "get" (some "n1") (some "item42"))
        (Except.ok [("item42", "<entry/>")])).requests =
      [Request.getItem "pubsub.example.com" (some "n1") (some "item42")] ∧
    (get (exClient "get" (some "n1") (some "item42"))
        (Except.ok [("item42", "<entry/>")])).logs =
      [infoLine [FmtPart.lit "Retrieved item ", FmtPart.ph,
        FmtPart.lit ": ", FmtPart.ph] ["item42", "<entry/>"]] := by
  have h := get_item_passthrough (exClient "get" (some "n1") (some "item42"))
    (Except.ok [("item42", "<entry/>")])
  exact ⟨h.1, (h.2.1 [("item42", "<entry/>")] rfl).trans (by decide)⟩

/-- Claim C8: before connecting, a missing certificate directory is fatal (log
critical, exit, no connect); a present directory with a missing CA bundle is
fatal likewise; a missing client certificate or client key only logs an error
and the connection is still attempted. -/
theorem cert_material_checks (fs : CertFS) (cwd : String) :
    (fs.dirExists = false →
      certCheckAndConnect fs cwd =
        [MainEvent.logCritical ("Certificate Directory not found at " ++ cwd),
         MainEvent.exited] ∧
      MainEvent.connected ∉ certCheckAndConnect fs cwd) ∧
    (fs.dirExists = true → fs.caExists = false →
      certCheckAndConnect fs cwd =
        [MainEvent.logCritical ("CA Certificate not found at " ++ ca_certs),
         MainEvent.exited] ∧
      MainEvent.connected ∉ certCheckAndConnect fs cwd) ∧
    (fs.dirExists = true → fs.caExists = true →
      MainEvent.connected ∈ certCheckAndConnect fs cwd ∧
      MainEvent.exited ∉ certCheckAndConnect fs cwd ∧
      (fs.certExists = false →
        MainEvent.logError ("Client Certificate not found at " ++ certfile) ∈
          certCheckAndConnect fs cwd) ∧
      (fs.keyExists = false →
        MainEvent.logError ("Client Key not found at " ++ ca_certs) ∈
          certCheckAndConnect fs cwd)) := by
  obtain ⟨d, ca, cf, k⟩ := fs
  cases d <;> cases ca <;> cases cf <;> cases k <;>
    simp [certCheckAndConnect]

theorem cert_material_checks_witness :
    MainEvent.connected ∈ certCheckAndConnect ⟨true, true, false, false⟩ "/srv" ∧
    MainEvent.exited ∉ certCheckAndConnect ⟨true, true, false, false⟩ "/srv" := by
  have h := cert_material_checks ⟨true, true, false, false⟩ "/srv"
  exact ⟨(h.2.2 rfl rfl).1, (h.2.2 rfl rfl).2.1⟩

/-- Claim C9: invoking `add_owner` with a missing data field raises an
`AttributeError` from splitting `None` before any request is built (line 134
precedes the `try` block); the exception is not an `XMPPError`, so only the
lifecycle catch-all in `start` sees it, logs it, and disconnect still
follows. -/
theorem add_owner_none_data_escapes (c : Client) (resp : Except XMPPErr String)
    (hd : c.data = none) (ha : c.action = "add_owner") :
    (add_owner c resp).requests = [] ∧
    (add_owner c resp).logs = [] ∧
    (∃ m, (add_owner c resp).raised = some (Exc.attributeError m)) ∧
    (∀ e, (add_owner c resp).raised ≠ some (Exc.xmpp e)) ∧
    start c (add_owner c resp) =
      [Event.rosterRetrieved, Event.presenceSent,
       Event.handlerStarted "add_owner",
       Event.logged (exceptionLine "add_owner"), Event.disconnected] := by
  have hg : getattrClient "add_owner" = AttrLookup.handler "add_owner" := by
    decide
  refine ⟨?_, ?_, ⟨"NoneType object has no attribute split", ?_⟩, ?_, ?_⟩ <;>
    simp [add_owner, hd, start, hg, ha]

theorem add_owner_none_data_escapes_witness :
    (add_owner (exClient "add_owner" (some "n1") none) (Except.ok "iq")).requests
        = [] ∧
    (add_owner (exClient "add_owner" (some "n1") none) (Except.ok "iq")).logs
        = [] ∧
    (∃ m, (add_owner (exClient "add_owner" (some "n1") none)
        (Except.ok "iq")).raised = some (Exc.attributeError m)) ∧
    (∀ e, (add_owner (exClient "add_owner" (some "n1") none)
        (Except.ok "iq")).raised ≠ some (Exc.xmpp e)) ∧
    start (exClient "add_owner" (some "n1") none)
        (add_owner (exClient "add_owner" (some "n1") none) (Except.ok "iq")) =
      [Event.rosterRetrieved, Event.presenceSent,
       Event.handlerStarted "add_owner",
       Event.logged (exceptionLine "add_owner"), Event.disconnected] :=
  add_owner_none_data_escapes (exClient "add_owner" (some "n1") none)
    (Except.ok "iq") rfl rfl

/-- Claim C1: for any action in the twelve-name set and any handler behaviour
(success, caught protocol fault, or any escaping exception — the latter logged
by the catch-all), a run reaching the session-established event retrieves the
roster, announces presence, dispatches exactly one action, possibly logs, and
disconnects exactly once, at the end. -/
theorem start_dispatch_then_disconnect (c : Client) (run : HandlerRun)
    (h : c.action ∈ actions) :
    ∃ mid : List Event,
      start c run =
        [Event.rosterRetrieved, Event.presenceSent,
         Event.handlerStarted c.action] ++ mid ++ [Event.disconnected] ∧
      (∀ e ∈ mid, ∃ l, e = Event.logged l) ∧
      (start c run).countP isDisconnect = 1 ∧
      (start c run).countP isDispatch = 1 := by
  have hg : getattrClient c.action = AttrLookup.handler c.action := by
    simp [getattrClient, h]
  refine ⟨run.logs.map Event.logged ++
      (match run.raised with
       | some _ => [Event.logged (exceptionLine c.action)]
       | none => []), ?_, ?_, ?_, ?_⟩
  · cases hr : run.raised <;> simp [start, hg, hr]
  · intro e he
    rcases List.mem_append.1 he with he | he
    · rcases List.mem_map.1 he with ⟨l, _, rfl⟩
      exact ⟨l, rfl⟩
    · cases hr : run.raised with
      | none => rw [hr] at he; simp at he
      | some ex =>
        rw [hr] at he
        simp at he
        exact ⟨exceptionLine c.action, he⟩
  · cases hr : run.raised <;>
      simp [start, hg, hr, List.countP_append, List.countP_cons,
        List.countP_map, Function.comp, isDisconnect, List.countP_false]
  · cases hr : run.raised <;>
      simp [start, hg, hr, List.countP_append, List.countP_cons,
        List.countP_map, Function.comp, isDispatch, List.countP_false]

theorem start_dispatch_then_disconnect_witness :
    ∃ mid : List Event,
      start (exClient "create" (some "mynode") none)
          ⟨[], [], some (Exc.other "boom")⟩ =
        [Event.rosterRetrieved, Event.presenceSent,
         Event.handlerStarted (exClient "create" (some "mynode") none).action] ++
          mid ++ [Event.disconnected] ∧
      (∀ e ∈ mid, ∃ l, e = Event.logged l) ∧
      (start (exClient "create" (some "mynode") none)
          ⟨[], [], some (Exc.other "boom")⟩).countP isDisconnect = 1 ∧
      (start (exClient "create" (some "mynode") none)
          ⟨[], [], some (Exc.other "boom")⟩).countP isDispatch = 1 :=
  start_dispatch_then_disconnect (exClient "create" (some "mynode") none)
    ⟨[], [], some (Exc.other "boom")⟩ (by decide)

end Pubsub2wtls
